import Mathlib

/-!
Verification development for the `millionaire` game-show server.

The JavaScript sources are embedded shallowly:

* JS numbers that are always small nonnegative integers become `Nat`
  (except where a computation can go negative, which becomes `Int`);
* a JS value that may be `undefined` becomes an `Option`;
* JS array indexing `xs[i]` becomes `List.get?` (out-of-range reads give
  `none`, matching `undefined`), and the loose equality `==` between two
  possibly-`undefined` numbers becomes `BEq` on `Option Nat`
  (`none == none` is `true`, exactly as `undefined == undefined` in JS);
* stateful handler methods of `GameServer` become explicit functions
  `GameState → GameState`; the single forced `setTimeout` handle becomes an
  `Option String` field naming the socket event a pending timer would fire,
  with `clearTimeout` setting it to `none` and a cancelled timer firing as a
  no-op.

Classes whose files are not part of the excerpt (`Question.js`,
`StepDialog.js`, `ServerState.js`, the `Player` class and the localization
table) are modelled from the specification document; every such definition
carries a doc comment starting with `Modelled from the spec:`.
-/

namespace Millionaire

/-! ### Choices.js -/

/-- `Choices.A` from `Choices.js`. -/
def Choices.A : Nat := 0

/-- `Choices.B` from `Choices.js`. -/
def Choices.B : Nat := 1

/-- `Choices.C` from `Choices.js`. -/
def Choices.C : Nat := 2

/-- `Choices.D` from `Choices.js`. -/
def Choices.D : Nat := 3

/-- `MAX_CHOICES` from `Choices.js`. -/
def MAX_CHOICES : Nat := 4

/-- `VALID_CHOICES` from `Choices.js`: the set `{A, B, C, D}`, embedded as a
list. -/
def VALID_CHOICES : List Nat := [Choices.A, Choices.B, Choices.C, Choices.D]

/-- `isValidChoice(choice)` from `Choices.js`: membership in `VALID_CHOICES`. -/
def isValidChoice (choice : Nat) : Bool := VALID_CHOICES.contains choice

/-! ### HotSeatQuestion.js: constants and the safe-haven computation -/

/-- `PAYOUTS` from `HotSeatQuestion.js`. -/
def PAYOUTS : List Nat :=
  [100, 200, 300, 500, 1000, 2000, 4000, 8000, 16000, 32000, 64000, 125000,
   250000, 500000, 1000000]

/-- `FINAL_ANSWER_WAIT_TIMES` from `HotSeatQuestion.js` (milliseconds).
`GameServer.js` imports a constant of the same name from `Question.js`, a
file outside the excerpt; per the spec (which gives `FINAL_ANSWER_WAIT_TIMES[4]
= 1500`, agreeing with this table) the two are the same table, so this single
list serves both. -/
def FINAL_ANSWER_WAIT_TIMES : List Nat :=
  [1000, 1000, 1000, 1000, 1500, 3000, 3000, 3000, 3000, 4000, 5000, 5000,
   5000, 5000, 7500]

/-- `CORRECT_WAIT_TIMES` from `HotSeatQuestion.js` (milliseconds). -/
def CORRECT_WAIT_TIMES : List Nat :=
  [1000, 1000, 1000, 1000, 8000, 5000, 5000, 5000, 5000, 8000, 7000, 7000,
   7000, 7000, 24000]

/-- `getSafeHavenIndex(failedIndex)` from `HotSeatQuestion.js`:
`oneIndexed = Math.max(0, failedIndex) + 1; return oneIndexed -
(oneIndexed % 5) - 1`.  The result can be `-1`, so the embedding uses `Int`;
both operands of the JS `%` are nonnegative here, where JS remainder and
`Int.emod` agree. -/
def getSafeHavenIndex (failedIndex : Int) : Int :=
  let oneIndexed : Int := max 0 failedIndex + 1
  oneIndexed - oneIndexed % 5 - 1

/-! ### HotSeatQuestion.js: the question object -/

/-- State of a `HotSeatQuestion` (fields set by its constructor plus the
fields inherited from `Question`).  `orderedChoices` holds the four slot
identities in true rank order (index 0 = correct), `shuffledChoices` the
permutation in which they are presented.  `revealedChoices` — Modelled from
the spec: "mapping from presented-slot → revealed-or-not"; entry `true` at a
presented slot models a defined (`!== undefined`) entry in the JS object. -/
structure HotSeatQuestion where
  orderedChoices : List Nat
  shuffledChoices : List Nat
  revealedChoices : List Bool
  correctChoiceRevealedForShowHost : Bool := false
  correctChoiceRevealedForAll : Bool := false
  questionIndex : Nat := 0
deriving Repr, DecidableEq

namespace HotSeatQuestion

/-- The loop body of `getShuffledChoice`: first index `i` (counting from
`start`) at which the list entry equals `target`, `none` when the loop falls
through (JS returns `undefined`). -/
def findMatchIdx (target : Option Nat) : List Nat → Nat → Option Nat
  | [], _ => none
  | c :: rest, i =>
    if (some c : Option Nat) == target then some i else findMatchIdx target rest (i + 1)

/-- `getShuffledChoice(orderedIndex)` from `HotSeatQuestion.js`: scans
`shuffledChoices` for the first index holding `orderedChoices[orderedIndex]`,
returning `undefined` (`none`) when no index matches. -/
def getShuffledChoice (q : HotSeatQuestion) (orderedIndex : Nat) : Option Nat :=
  findMatchIdx (q.orderedChoices.get? orderedIndex) q.shuffledChoices 0

/-- `answerIsCorrect(answer)` from `HotSeatQuestion.js`:
`this.shuffledChoices[answer] == this.orderedChoices[0]`.  The argument is an
`Option Nat` because callers can pass an undefined choice. -/
def answerIsCorrect (q : HotSeatQuestion) (answer : Option Nat) : Bool :=
  (answer.bind (fun a => q.shuffledChoices.get? a)) == q.orderedChoices.get? 0

/-- `getCorrectChoice()` from `HotSeatQuestion.js`. -/
def getCorrectChoice (q : HotSeatQuestion) : Option Nat :=
  q.getShuffledChoice 0

/-- The JS condition
`this.revealedChoices[this.getShuffledChoice(index)] !== undefined` for a
given ordered `index`: when `getShuffledChoice` itself is `undefined`, the
lookup `revealedChoices[undefined]` is `undefined` and the test is false. -/
def revealedEntryDefined (q : HotSeatQuestion) (index : Nat) : Bool :=
  match q.getShuffledChoice index with
  | some s => q.revealedChoices.getD s false
  | none => false

/-- `getRemainingOrderedChoiceIndexes()` from `HotSeatQuestion.js`: walks
`orderedChoices` by index and pushes each index whose presented slot has a
defined `revealedChoices` entry. -/
def getRemainingOrderedChoiceIndexes (q : HotSeatQuestion) : List Nat :=
  (List.range q.orderedChoices.length).filter (fun index => q.revealedEntryDefined index)

/-- `revealCorrectChoiceForShowHost()` from `HotSeatQuestion.js`. -/
def revealCorrectChoiceForShowHost (q : HotSeatQuestion) : HotSeatQuestion :=
  { q with correctChoiceRevealedForShowHost := true }

/-- `revealCorrectChoiceForAll()` from `HotSeatQuestion.js`. -/
def revealCorrectChoiceForAll (q : HotSeatQuestion) : HotSeatQuestion :=
  { q with correctChoiceRevealedForAll := true }

end HotSeatQuestion

/-! ### StepDialog.js (modelled) and GameServer.js dialog builders -/

/-- One entry of a `StepDialog`'s `actions` array: `{socketEvent, text}`. -/
structure StepAction where
  socketEvent : String
  text : String
deriving Repr, DecidableEq

/-- Modelled from the spec: `StepDialog.js` is outside the excerpt.  Per the
spec a `StepDialog` holds `actions` (ordered `{eventName, label}` pairs),
`timeoutFunc` + `timeoutMs` (the alternative automatic advance) and an
optional `header`; the constructor stores its arguments and defaults the
trailing ones to `undefined`.  The JS `timeoutFunc` closure always has the
shape `() => this[nextSocketEvent]({}, ...)`, so it is embedded by the name
of the socket event it invokes (`none` = `undefined`). -/
structure StepDialog where
  actions : List StepAction := []
  timeoutFunc : Option String := none
  timeoutMs : Option Nat := none
  header : Option String := none
deriving Repr, DecidableEq

/-- Modelled from the spec: the localization table `LocalizedStrings.js` is an
external collaborator; only the identity of each string matters here. -/
def LocalizedStrings (key : String) : String := key

/-- The `data` argument of `_getOneChoiceHostStepDialog`:
`{nextSocketEvent, hostButtonMessage, aiTimeout}`.  `aiTimeout` is an
`Option Nat` because the JS field could be left `undefined` by a caller. -/
structure OneChoiceData where
  nextSocketEvent : String
  hostButtonMessage : String
  aiTimeout : Option Nat
deriving Repr, DecidableEq

/-- `_getOneChoiceHostStepDialog(data)` from `GameServer.js`, with the
receiver's `this.serverState.playerShowHostPresent()` passed explicitly:
a host-clickable single action when a human host is present, otherwise an
empty-action dialog whose timeout invokes the same next socket event. -/
def getOneChoiceHostStepDialog (showHostPresent : Bool) (data : OneChoiceData) :
    StepDialog :=
  if showHostPresent then
    { actions := [{ socketEvent := data.nextSocketEvent,
                    text := data.hostButtonMessage }] }
  else
    { actions := [],
      timeoutFunc := some data.nextSocketEvent,
      timeoutMs := data.aiTimeout }

/-- `_getYesNoDialog(yesEvent, noEvent, header)` from `GameServer.js`. -/
def getYesNoDialog (yesEvent noEvent header : String) : StepDialog :=
  { actions := [{ socketEvent := yesEvent, text := LocalizedStrings "YES" },
                { socketEvent := noEvent, text := LocalizedStrings "NO" }],
    timeoutFunc := none,
    timeoutMs := none,
    header := some header }

/-! ### GameServer.js: socket event enumeration and method names -/

/-- `SOCKET_EVENTS` from `GameServer.js`, in source order. -/
def SOCKET_EVENTS : List String :=
  ["showHostShowFastestFingerRules",
   "showHostCueFastestFingerQuestion",
   "showHostShowFastestFingerQuestionText",
   "showHostCueFastestFingerThreeStrikes",
   "showHostRevealFastestFingerQuestionChoices",
   "contestantFastestFingerChoose",
   "fastestFingerTimeUp",
   "showHostCueFastestFingerAnswerRevealAudio",
   "showHostRevealFastestFingerAnswer",
   "showHostRevealFastestFingerResults",
   "showHostAcceptHotSeatPlayer",
   "showHostCueHotSeatRules",
   "showHostHighlightLifeline",
   "showHostCueHotSeatQuestion",
   "showHostShowHotSeatQuestionText",
   "showHostRevealHotSeatChoice",
   "showHostAskTheAudience",
   "showHostDoFiftyFifty",
   "showHostPhoneAFriend",
   "showHostRevealHotSeatQuestionVictory",
   "showHostRevealHotSeatQuestionLoss",
   "showHostShowScores",
   "contestantChoose",
   "contestantSetConfidence",
   "hotSeatChoose",
   "hotSeatFinalAnswer",
   "hotSeatUseLifeline",
   "hotSeatConfirmLifeline",
   "hotSeatPickPhoneAFriend"]

/-- The names of the socket-listener methods the `GameServer` class defines in
the excerpted `GameServer.js`, in source order (its other methods —
constructor, private helpers, lifecycle methods and the victory
continuation — are not socket-event names and are omitted). -/
def gameServerListenerMethodsInExcerpt : List String :=
  ["showHostShowFastestFingerRules",
   "showHostCueFastestFingerQuestion",
   "showHostShowFastestFingerQuestionText",
   "showHostCueFastestFingerThreeStrikes",
   "showHostRevealFastestFingerQuestionChoices",
   "contestantFastestFingerChoose",
   "fastestFingerTimeUp",
   "showHostCueFastestFingerAnswerRevealAudio",
   "showHostRevealFastestFingerAnswer",
   "showHostRevealFastestFingerResults",
   "showHostAcceptHotSeatPlayer",
   "showHostCueHotSeatRules",
   "showHostCueHotSeatQuestion",
   "showHostShowHotSeatQuestionText",
   "showHostRevealHotSeatChoice",
   "hotSeatChoose",
   "contestantChoose",
   "hotSeatFinalAnswer",
   "showHostRevealHotSeatQuestionVictory"]

/-- Modelled from the spec: `GameServer` "exposes one handler per phase name"
(§2) across "~30 phases" (§1); the handler methods for these ten enumerated
socket events (lifelines, confidence, scores, the loss phase and the lifeline
highlight) are not part of the excerpted `GameServer.js`, so their existence
is taken from the spec. -/
def gameServerListenerMethodsModelled : List String :=
  ["showHostHighlightLifeline",
   "showHostAskTheAudience",
   "showHostDoFiftyFifty",
   "showHostPhoneAFriend",
   "showHostRevealHotSeatQuestionLoss",
   "showHostShowScores",
   "contestantSetConfidence",
   "hotSeatUseLifeline",
   "hotSeatConfirmLifeline",
   "hotSeatPickPhoneAFriend"]

/-- All `GameServer` listener-method names: those defined in the excerpt plus
the spec-modelled remainder. -/
def gameServerListenerMethods : List String :=
  gameServerListenerMethodsInExcerpt ++ gameServerListenerMethodsModelled

/-! ### Player.js (modelled) -/

/-- Modelled from the spec: the `Player` class is an external collaborator of
the excerpt.  A player carries the per-round answers the `GameServer` handlers
touch: the fastest-finger ordering built up one choice at a time, and the
single hot-seat choice. -/
structure PlayerState where
  fastestFingerChoices : List Nat := []
  hotSeatChoice : Option Nat := none
deriving Repr, DecidableEq

/-- Modelled from the spec: `player.chooseFastestFinger(choice)` records one
more slot of the contestant's ordering of the 4 choices.  The Choice
invariant (§3) admits only the four valid slots, an ordering has no repeated
slot, and "a contestant's answer, once locked, cannot be changed", so a
complete 4-slot ordering accepts no further input. -/
def chooseFastestFinger (p : PlayerState) (choice : Nat) : PlayerState :=
  if isValidChoice choice && !(p.fastestFingerChoices.contains choice) &&
      p.fastestFingerChoices.length < MAX_CHOICES then
    { p with fastestFingerChoices := p.fastestFingerChoices ++ [choice] }
  else
    p

/-- Modelled from the spec: `player.chooseHotSeat(choice)` stores the player's
single hot-seat choice; the Choice invariant (§3) requires every stored
choice to be one of the four slots or "unanswered", so an invalid slot is not
stored. -/
def chooseHotSeat (p : PlayerState) (choice : Nat) : PlayerState :=
  if isValidChoice choice then { p with hotSeatChoice := some choice } else p

/-- Modelled from the spec: `player.chooseFastestFinger` is "done" once the
full 4-slot ordering is in. -/
def playerDoneWithFastestFinger (p : PlayerState) : Bool :=
  p.fastestFingerChoices.length == MAX_CHOICES

/-! ### GameServer.js: the handler fragment as a state-transition system -/

/-- The slice of `GameServer` + `ServerState` state the verified handlers
read and write.  `forcedTimerTarget` embeds `this.currentForcedTimer`: the
socket event a pending `setTimeout` would fire, `none` when no timer is
pending or `clearTimeout` has run.  `fastestFingerTimeUpFires` is
instrumentation (not a JS field): it counts invocations of the
`fastestFingerTimeUp` handler so that "fires exactly once" is stateable.
`showHostPresent` embeds `this.serverState.playerShowHostPresent()`;
`contestants` embeds the connected contestants of the player map;
`ffChoicesRevealed` / `ffStartTimeMarked` embed the fastest-finger question
mutations `revealAllChoices()` / `markStartTime()`. -/
structure GameState where
  showHostPresent : Bool
  currentSocketEvent : Option String := none
  showHostStepDialog : Option StepDialog := none
  hotSeatStepDialog : Option StepDialog := none
  forcedTimerTarget : Option String := none
  fastestFingerTimeUpFires : Nat := 0
  contestants : List PlayerState := []
  hotSeatPlayer : PlayerState := {}
  hotSeatQuestion : HotSeatQuestion
  hotSeatQuestionIndex : Nat := 0
  ffChoicesRevealed : Bool := false
  ffStartTimeMarked : Bool := false
deriving Repr, DecidableEq

/-- Updates the `i`-th contestant in place (the JS handlers look a player up
by socket and mutate that one player object). -/
def modifyContestant (l : List PlayerState) (i : Nat) (f : PlayerState → PlayerState) :
    List PlayerState :=
  match l.get? i with
  | some p => l.set i (f p)
  | none => l

/-- `this.serverState.allPlayersDoneWithFastestFinger()` — Modelled from the
spec: true when every connected contestant has submitted a complete
fastest-finger ordering. -/
def allPlayersDoneWithFastestFinger (s : GameState) : Bool :=
  s.contestants.all playerDoneWithFastestFinger

/-- `fastestFingerTimeUp(socket, data)` from `GameServer.js`: records the
phase name, clears the forced timer (`clearTimeout`) even when triggered
early by everyone answering, and installs the one-choice host dialog toward
`showHostCueFastestFingerAnswerRevealAudio` (2.5 s automatic wait). -/
def fastestFingerTimeUp (s : GameState) : GameState :=
  { s with
    currentSocketEvent := some "fastestFingerTimeUp",
    forcedTimerTarget := none,
    fastestFingerTimeUpFires := s.fastestFingerTimeUpFires + 1,
    showHostStepDialog := some (getOneChoiceHostStepDialog s.showHostPresent
      { nextSocketEvent := "showHostCueFastestFingerAnswerRevealAudio",
        hostButtonMessage := LocalizedStrings "CUE_FASTEST_FINGER_ANSWER_REVEAL_AUDIO",
        aiTimeout := some 2500 }) }

/-- `showHostRevealFastestFingerQuestionChoices(socket, data)` from
`GameServer.js`: reveals all choices, marks the start time, and arms the
10-second forced timer targeting `fastestFingerTimeUp`. -/
def showHostRevealFastestFingerQuestionChoices (s : GameState) : GameState :=
  { s with
    currentSocketEvent := some "showHostRevealFastestFingerQuestionChoices",
    ffChoicesRevealed := true,
    ffStartTimeMarked := true,
    forcedTimerTarget := some "fastestFingerTimeUp" }

/-- The recording half of `contestantFastestFingerChoose`:
`player.chooseFastestFinger(data.choice)` for the submitting contestant. -/
def recordFastestFinger (s : GameState) (i : Nat) (choice : Nat) : GameState :=
  { s with
    contestants := modifyContestant s.contestants i
      (fun p => chooseFastestFinger p choice) }

/-- `contestantFastestFingerChoose(socket, data)` from `GameServer.js`:
records the submitting contestant's choice, then — if every contestant is now
done — invokes `fastestFingerTimeUp` directly (the early-completion path).
Note the handler itself neither checks the current phase nor touches
`currentSocketEvent`. -/
def contestantFastestFingerChoose (s : GameState) (i : Nat) (choice : Nat) :
    GameState :=
  let s' := recordFastestFinger s i choice
  if allPlayersDoneWithFastestFinger s' then fastestFingerTimeUp s' else s'

/-- `showHostCueFastestFingerAnswerRevealAudio(socket, data)` from
`GameServer.js`. -/
def showHostCueFastestFingerAnswerRevealAudio (s : GameState) : GameState :=
  { s with
    currentSocketEvent := some "showHostCueFastestFingerAnswerRevealAudio",
    showHostStepDialog := some (getOneChoiceHostStepDialog s.showHostPresent
      { nextSocketEvent := "showHostRevealFastestFingerAnswer",
        hostButtonMessage := LocalizedStrings "REVEAL_FASTEST_FINGER_ANSWER",
        aiTimeout := some 2500 }) }

/-- The forced timer firing: a pending `setTimeout` callback re-enters the
handler it targets; a cleared handle (`forcedTimerTarget = none`) never calls
back.  Only the fastest-finger timer of the modelled fragment is
dispatched. -/
def forcedTimerFire (s : GameState) : GameState :=
  match s.forcedTimerTarget with
  | some e =>
    if e = "fastestFingerTimeUp" then fastestFingerTimeUp s
    else if e = "showHostRevealFastestFingerQuestionChoices" then
      showHostRevealFastestFingerQuestionChoices s
    else s
  | none => s

/-- `hotSeatChoose(socket, data)` from `GameServer.js`: records the phase
name, stores the hot-seat player's choice, and routes the final-answer
yes/no dialog to the show host's slot when a human host is present, else to
the hot-seat player's slot.  The handler performs no validity check of its
own on `data.choice`. -/
def hotSeatChoose (s : GameState) (choice : Nat) : GameState :=
  let s₁ := { s with
    currentSocketEvent := some "hotSeatChoose",
    hotSeatPlayer := chooseHotSeat s.hotSeatPlayer choice }
  let dialog := getYesNoDialog "hotSeatFinalAnswer" "showHostRevealHotSeatChoice"
    (LocalizedStrings "HOT_SEAT_FINAL_ANSWER")
  if s₁.showHostPresent then { s₁ with showHostStepDialog := some dialog }
  else { s₁ with hotSeatStepDialog := some dialog }

/-- `contestantChoose(socket, data)` from `GameServer.js`: records the
submitting contestant's hot-seat choice and emits only to that socket; no
phase-state mutation. -/
def contestantChoose (s : GameState) (i : Nat) (choice : Nat) : GameState :=
  { s with contestants :=
      modifyContestant s.contestants i (fun p => chooseHotSeat p choice) }

/-- `hotSeatFinalAnswer(socket, data)` from `GameServer.js`: records the
phase name, reveals the correct choice to the show host, grades the hot-seat
player's locked-in choice, and installs a one-choice host dialog toward the
victory or loss phase, in both branches with automatic wait
`FINAL_ANSWER_WAIT_TIMES[hotSeatQuestionIndex]`. -/
def hotSeatFinalAnswer (s : GameState) : GameState :=
  let s₁ := { s with
    currentSocketEvent := some "hotSeatFinalAnswer",
    hotSeatQuestion := s.hotSeatQuestion.revealCorrectChoiceForShowHost }
  if s₁.hotSeatQuestion.answerIsCorrect s₁.hotSeatPlayer.hotSeatChoice then
    { s₁ with showHostStepDialog := some (getOneChoiceHostStepDialog s₁.showHostPresent
        { nextSocketEvent := "showHostRevealHotSeatQuestionVictory",
          hostButtonMessage := LocalizedStrings "HOT_SEAT_VICTORY",
          aiTimeout := FINAL_ANSWER_WAIT_TIMES.get? s₁.hotSeatQuestionIndex }) }
  else
    { s₁ with showHostStepDialog := some (getOneChoiceHostStepDialog s₁.showHostPresent
        { nextSocketEvent := "showHostRevealHotSeatQuestionLoss",
          hostButtonMessage := LocalizedStrings "HOT_SEAT_LOSS",
          aiTimeout := FINAL_ANSWER_WAIT_TIMES.get? s₁.hotSeatQuestionIndex }) }

/-! ### Question.js compression (modelled) and `HotSeatQuestion.toCompressed` -/

/-- The compressed question object sent over the socket.  A JS field that a
code path may leave unset is an `Option` whose `none` means "field absent";
`correctChoice` is therefore an `Option` of the (possibly-`undefined`) choice
value, and `choiceLocked` defaults to `false` only as the stand-in for
"absent" in the base projection (the hot-seat projection always assigns
it). -/
structure CompressedQuestion where
  madeChoices : List (Option Nat)
  correctChoice : Option (Option Nat) := none
  choiceLocked : Bool := false
deriving Repr, DecidableEq

/-- Modelled from the spec: `Question.toCompressed(madeChoices)` of the base
class `Question.js` (outside the excerpt) builds the client-safe projection
holding the made choices; the base projection carries no `correctChoice` and
no `choiceLocked` field. -/
def toCompressedBase (madeChoices : List (Option Nat)) : CompressedQuestion :=
  { madeChoices := madeChoices }

/-- `toCompressed(madeChoice, showCorrectChoice)` from `HotSeatQuestion.js`:
starts from `super.toCompressed([madeChoice])`, adds `correctChoice` only
when `showCorrectChoice`, and always assigns
`choiceLocked = (madeChoice !== undefined)`. -/
def HotSeatQuestion.toCompressed (q : HotSeatQuestion) (madeChoice : Option Nat)
    (showCorrectChoice : Bool) : CompressedQuestion :=
  let compressed := toCompressedBase [madeChoice]
  let compressed :=
    if showCorrectChoice then
      { compressed with correctChoice := some q.getCorrectChoice }
    else compressed
  { compressed with choiceLocked := madeChoice.isSome }

/-- The specification's reading of `getRemainingOrderedChoiceIndexes`, stated
from the spec's words for comparison with the source function: "returns, in
true-rank order, the indexes of choices not yet revealed". -/
def specUnrevealedOrderedChoiceIndexes (q : HotSeatQuestion) : List Nat :=
  (List.range q.orderedChoices.length).filter
    (fun index => !(q.revealedEntryDefined index))

/-! ## Supporting lemmas -/

/-- All 24 permutations of the four choice slots `[0, 1, 2, 3]`, listed
explicitly so that quantification over them is kernel-decidable. -/
def perms4 : List (List Nat) :=
  [[0,1,2,3], [0,1,3,2], [0,2,1,3], [0,2,3,1], [0,3,1,2], [0,3,2,1],
   [1,0,2,3], [1,0,3,2], [1,2,0,3], [1,2,3,0], [1,3,0,2], [1,3,2,0],
   [2,0,1,3], [2,0,3,1], [2,1,0,3], [2,1,3,0], [2,3,0,1], [2,3,1,0],
   [3,0,1,2], [3,0,2,1], [3,1,0,2], [3,1,2,0], [3,2,0,1], [3,2,1,0]]

lemma mem_choices_iff_lt_four (n : Nat) : n ∈ ([0, 1, 2, 3] : List Nat) ↔ n < 4 := by
  simp only [List.mem_cons, List.mem_singleton, List.not_mem_nil, or_false]
  omega

lemma nodup_bounded_mem_perms4 :
    ∀ a ∈ ([0,1,2,3] : List Nat), ∀ b ∈ ([0,1,2,3] : List Nat),
    ∀ c ∈ ([0,1,2,3] : List Nat), ∀ d ∈ ([0,1,2,3] : List Nat),
      ([a, b, c, d] : List Nat).Nodup → [a, b, c, d] ∈ perms4 := by
  decide

/-- Completeness of the explicit enumeration: every permutation of the four
slots occurs in `perms4`. -/
lemma perm_mem_perms4 (l : List Nat) (h : l.Perm [0, 1, 2, 3]) : l ∈ perms4 := by
  have hlen : l.length = 4 := by simpa using h.length_eq
  have hnd : l.Nodup := h.nodup_iff.mpr (by decide)
  have hmem : ∀ x ∈ l, x ∈ ([0, 1, 2, 3] : List Nat) := fun x hx => h.mem_iff.mp hx
  match l, hlen with
  | [a, b, c, d], _ =>
    exact nodup_bounded_mem_perms4 a (hmem a (by simp)) b (hmem b (by simp))
      c (hmem c (by simp)) d (hmem d (by simp)) hnd

/-- Updating a contestant with a function that fixes it leaves the roster
unchanged. -/
lemma modifyContestant_fix (f : PlayerState → PlayerState) (hf : ∀ p, f p = p) :
    ∀ (l : List PlayerState) (i : Nat), modifyContestant l i f = l := by
  intro l
  induction l with
  | nil => intro i; rfl
  | cons p rest ih =>
    intro i
    cases i with
    | zero => simp [modifyContestant, hf]
    | succ n =>
      have step := ih n
      simp only [modifyContestant] at step ⊢
      have hget : (p :: rest).get? (n + 1) = rest.get? n := rfl
      rw [hget]
      cases h : rest.get? n with
      | none => rfl
      | some q =>
        simp only [h] at step
        show (p :: rest).set (n + 1) (f q) = p :: rest
        show p :: rest.set n (f q) = p :: rest
        rw [step]

/-- `showHostRevealFastestFingerQuestionChoices` arms the forced timer at
`fastestFingerTimeUp`. -/
lemma revealChoices_arms_timeUp_timer (s : GameState) :
    (showHostRevealFastestFingerQuestionChoices s).forcedTimerTarget =
      some "fastestFingerTimeUp" := rfl

/-- A submission that does not complete the set only records the choice: the
pending timer, the fire count and the phase name are untouched. -/
lemma contestantFastestFingerChoose_not_done (s : GameState) (i choice : Nat)
    (hnot : allPlayersDoneWithFastestFinger (recordFastestFinger s i choice) = false) :
    contestantFastestFingerChoose s i choice = recordFastestFinger s i choice := by
  simp [contestantFastestFingerChoose, hnot]

lemma answerIsCorrect_cases :
    ∀ oc ∈ perms4, ∀ sc ∈ perms4,
      ∃ s0 ∈ ([0, 1, 2, 3] : List Nat),
        HotSeatQuestion.getShuffledChoice ⟨oc, sc, [], false, false, 0⟩ 0 = some s0 ∧
        ∀ slot ∈ ([0, 1, 2, 3] : List Nat),
          (HotSeatQuestion.answerIsCorrect ⟨oc, sc, [], false, false, 0⟩ (some slot) = true ↔
            slot = s0) := by
  decide

/-! ## Claim theorems -/

/-- C1: for every true-rank ordering and every shuffle of the 4 choice slots
that is a permutation (all 24 cases), `HotSeatQuestion.answerIsCorrect`
returns true exactly for the one presented slot holding the true first-ranked
choice — the slot `getShuffledChoice 0` — and false for the other three
slots. -/
theorem answerIsCorrect_true_exactly_on_first_rank_slot
    (oc sc : List Nat) (hoc : oc.Perm [0, 1, 2, 3]) (hsc : sc.Perm [0, 1, 2, 3]) :
    ∃ s0 < 4,
      HotSeatQuestion.getShuffledChoice ⟨oc, sc, [], false, false, 0⟩ 0 = some s0 ∧
      ∀ slot < 4,
        (HotSeatQuestion.answerIsCorrect ⟨oc, sc, [], false, false, 0⟩ (some slot) = true ↔
          slot = s0) := by
  obtain ⟨s0, hs0mem, hgsc, hall⟩ :=
    answerIsCorrect_cases oc (perm_mem_perms4 oc hoc) sc (perm_mem_perms4 sc hsc)
  exact ⟨s0, (mem_choices_iff_lt_four s0).mp hs0mem, hgsc,
    fun slot hslot => hall slot ((mem_choices_iff_lt_four slot).mpr hslot)⟩

/-- Witness for C1 at the shuffle `[1,2,0,3]` of the ordering `[2,0,1,3]`. -/
theorem answerIsCorrect_true_exactly_on_first_rank_slot_witness :
    ∃ s0 < 4,
      HotSeatQuestion.getShuffledChoice ⟨[2,0,1,3], [1,2,0,3], [], false, false, 0⟩ 0 =
        some s0 ∧
      ∀ slot < 4,
        (HotSeatQuestion.answerIsCorrect ⟨[2,0,1,3], [1,2,0,3], [], false, false, 0⟩
            (some slot) = true ↔ slot = s0) :=
  answerIsCorrect_true_exactly_on_first_rank_slot [2,0,1,3] [1,2,0,3]
    (by decide) (by decide)

/-- C2: for every `failedIndex` in `0..14`, `getSafeHavenIndex failedIndex`
equals `⌊(failedIndex+1)/5⌋*5 - 1`; in particular it is `-1` on `[0,3]`, `4`
on `[4,8]`, `9` on `[9,13]` and `14` at `14`. -/
theorem getSafeHavenIndex_floor_formula (f : Int) (h0 : 0 ≤ f) (h14 : f ≤ 14) :
    getSafeHavenIndex f = ((f + 1) / 5) * 5 - 1 ∧
    (f ≤ 3 → getSafeHavenIndex f = -1) ∧
    (4 ≤ f → f ≤ 8 → getSafeHavenIndex f = 4) ∧
    (9 ≤ f → f ≤ 13 → getSafeHavenIndex f = 9) ∧
    (f = 14 → getSafeHavenIndex f = 14) := by
  simp only [getSafeHavenIndex]
  omega

/-- Witness for C2 at `failedIndex = 9`. -/
theorem getSafeHavenIndex_floor_formula_witness :
    getSafeHavenIndex 9 = ((9 + 1) / 5) * 5 - 1 ∧
    ((9 : Int) ≤ 3 → getSafeHavenIndex 9 = -1) ∧
    ((4 : Int) ≤ 9 → (9 : Int) ≤ 8 → getSafeHavenIndex 9 = 4) ∧
    ((9 : Int) ≤ 9 → (9 : Int) ≤ 13 → getSafeHavenIndex 9 = 9) ∧
    ((9 : Int) = 14 → getSafeHavenIndex 9 = 14) :=
  getSafeHavenIndex_floor_formula 9 (by decide) (by decide)

/-- C3: a one-choice host step dialog built with a human show host present
has exactly one action, targeting the given next phase, and no timeout; built
with no host present it has zero actions and a defined timeout whose timeout
function invokes that same next phase. -/
theorem oneChoiceHostStepDialog_host_presence_branch
    (showHostPresent : Bool) (d : OneChoiceData) (hdef : d.aiTimeout.isSome = true) :
    (showHostPresent = true →
      (getOneChoiceHostStepDialog showHostPresent d).actions.length = 1 ∧
      (getOneChoiceHostStepDialog showHostPresent d).actions.map StepAction.socketEvent =
        [d.nextSocketEvent] ∧
      (getOneChoiceHostStepDialog showHostPresent d).timeoutFunc = none ∧
      (getOneChoiceHostStepDialog showHostPresent d).timeoutMs = none) ∧
    (showHostPresent = false →
      (getOneChoiceHostStepDialog showHostPresent d).actions = [] ∧
      (getOneChoiceHostStepDialog showHostPresent d).timeoutFunc =
        some d.nextSocketEvent ∧
      (getOneChoiceHostStepDialog showHostPresent d).timeoutMs.isSome = true) := by
  cases showHostPresent <;>
    simp [getOneChoiceHostStepDialog, hdef]

/-- Witness for C3 at the `showHostShowFastestFingerRules` call site data with
no host present. -/
theorem oneChoiceHostStepDialog_host_presence_branch_witness :
    ((false = true →
      (getOneChoiceHostStepDialog false
        ⟨"showHostCueFastestFingerQuestion", "cue music", some 5000⟩).actions.length = 1 ∧
      (getOneChoiceHostStepDialog false
        ⟨"showHostCueFastestFingerQuestion", "cue music", some 5000⟩).actions.map
          StepAction.socketEvent = ["showHostCueFastestFingerQuestion"] ∧
      (getOneChoiceHostStepDialog false
        ⟨"showHostCueFastestFingerQuestion", "cue music", some 5000⟩).timeoutFunc = none ∧
      (getOneChoiceHostStepDialog false
        ⟨"showHostCueFastestFingerQuestion", "cue music", some 5000⟩).timeoutMs = none) ∧
    (false = false →
      (getOneChoiceHostStepDialog false
        ⟨"showHostCueFastestFingerQuestion", "cue music", some 5000⟩).actions = [] ∧
      (getOneChoiceHostStepDialog false
        ⟨"showHostCueFastestFingerQuestion", "cue music", some 5000⟩).timeoutFunc =
          some "showHostCueFastestFingerQuestion" ∧
      (getOneChoiceHostStepDialog false
        ⟨"showHostCueFastestFingerQuestion", "cue music", some 5000⟩).timeoutMs.isSome =
          true)) :=
  oneChoiceHostStepDialog_host_presence_branch false
    ⟨"showHostCueFastestFingerQuestion", "cue music", some 5000⟩ (by decide)

/-- C5: every socket event of the `SOCKET_EVENTS` enumeration has a
`GameServer` listener method of that exact name (ten of them modelled from
the spec, see `gameServerListenerMethodsModelled`), so the listener
registered by `activateListenersForSocket` — which invokes
`this[socketEvent]` — never looks up an undefined member for an enumerated
inbound message. -/
theorem socket_events_all_have_listener_methods :
    ∀ e ∈ SOCKET_EVENTS, e ∈ gameServerListenerMethods := by
  decide

/-- Witness for C5 at the `fastestFingerTimeUp` socket event. -/
theorem socket_events_all_have_listener_methods_witness :
    "fastestFingerTimeUp" ∈ gameServerListenerMethods :=
  socket_events_all_have_listener_methods "fastestFingerTimeUp" (by decide)

/-- The state of a two-contestant game inside the fastest-finger answer
window: the 10-second forced timer is pending and the second contestant still
lacks one slot of their ordering. -/
def ffRaceState : GameState :=
  { showHostPresent := false,
    currentSocketEvent := some "showHostRevealFastestFingerQuestionChoices",
    forcedTimerTarget := some "fastestFingerTimeUp",
    contestants := [⟨[0, 1, 2, 3], none⟩, ⟨[2, 3, 0], none⟩],
    hotSeatQuestion := ⟨[0, 1, 2, 3], [0, 1, 2, 3], [], false, false, 0⟩,
    ffChoicesRevealed := true,
    ffStartTimeMarked := true }

/-- C6: when a contestant submission completes the set while the 10-second
forced timer armed by `showHostRevealFastestFingerQuestionChoices` is still
pending, the `fastestFingerTimeUp` phase fires exactly once — the
early-completion path triggers it immediately, the pending forced timer is
cancelled, and the superseded timer firing afterwards is a no-op (no second
transition). -/
theorem fastestFingerTimeUp_fires_exactly_once_on_early_completion
    (s : GameState) (i choice : Nat)
    (_harmed : s.forcedTimerTarget = some "fastestFingerTimeUp")
    (hdone : allPlayersDoneWithFastestFinger (recordFastestFinger s i choice) = true) :
    (contestantFastestFingerChoose s i choice).fastestFingerTimeUpFires =
      s.fastestFingerTimeUpFires + 1 ∧
    (contestantFastestFingerChoose s i choice).currentSocketEvent =
      some "fastestFingerTimeUp" ∧
    (contestantFastestFingerChoose s i choice).forcedTimerTarget = none ∧
    forcedTimerFire (contestantFastestFingerChoose s i choice) =
      contestantFastestFingerChoose s i choice := by
  have hcc : contestantFastestFingerChoose s i choice =
      fastestFingerTimeUp (recordFastestFinger s i choice) := by
    simp [contestantFastestFingerChoose, hdone]
  rw [hcc]
  refine ⟨rfl, rfl, rfl, ?_⟩
  simp [forcedTimerFire, fastestFingerTimeUp]

/-- Witness for C6: in `ffRaceState`, contestant 1's fourth choice completes
the set early. -/
theorem fastestFingerTimeUp_fires_exactly_once_on_early_completion_witness :
    (contestantFastestFingerChoose ffRaceState 1 1).fastestFingerTimeUpFires =
      ffRaceState.fastestFingerTimeUpFires + 1 ∧
    (contestantFastestFingerChoose ffRaceState 1 1).currentSocketEvent =
      some "fastestFingerTimeUp" ∧
    (contestantFastestFingerChoose ffRaceState 1 1).forcedTimerTarget = none ∧
    forcedTimerFire (contestantFastestFingerChoose ffRaceState 1 1) =
      contestantFastestFingerChoose ffRaceState 1 1 :=
  fastestFingerTimeUp_fires_exactly_once_on_early_completion ffRaceState 1 1
    rfl (by decide)

/-- A three-contestant game that has already moved past `fastestFingerTimeUp`
(the phase fired once, the host advanced to the answer-reveal-audio phase)
while contestant 2 never finished their ordering. -/
def lateFFState : GameState :=
  { showHostPresent := true,
    currentSocketEvent := some "showHostCueFastestFingerAnswerRevealAudio",
    showHostStepDialog := some { actions := [{
      socketEvent := "showHostRevealFastestFingerAnswer",
      text := "REVEAL_FASTEST_FINGER_ANSWER" }] },
    forcedTimerTarget := none,
    fastestFingerTimeUpFires := 1,
    contestants := [⟨[0, 1, 2, 3], none⟩, ⟨[2, 3, 0, 1], none⟩, ⟨[0, 1, 2], none⟩],
    hotSeatQuestion := ⟨[0, 1, 2, 3], [0, 1, 2, 3], [], false, false, 0⟩,
    ffChoicesRevealed := true,
    ffStartTimeMarked := true }

/-- C7 at its failing input: a `contestantFastestFingerChoose` arriving after
`fastestFingerTimeUp` has fired (the game sits in the later
`showHostCueFastestFingerAnswerRevealAudio` phase) is not ignored — the
handler records the late choice, and because that completes the set it
re-invokes `fastestFingerTimeUp`, dragging the phase state backwards and
firing the phase a second time. -/
theorem contestantFastestFingerChoose_late_not_ignored :
    (contestantFastestFingerChoose lateFFState 2 3).contestants.get? 2 =
      some ⟨[0, 1, 2, 3], none⟩ ∧
    lateFFState.currentSocketEvent = some "showHostCueFastestFingerAnswerRevealAudio" ∧
    (contestantFastestFingerChoose lateFFState 2 3).currentSocketEvent =
      some "fastestFingerTimeUp" ∧
    (contestantFastestFingerChoose lateFFState 2 3).fastestFingerTimeUpFires =
      lateFFState.fastestFingerTimeUpFires + 1 := by
  decide

/-- C4: `HotSeatQuestion.toCompressed` includes the `correctChoice` field iff
`showCorrectChoice` is true (in which case it holds `getCorrectChoice`), and
its `choiceLocked` field is true iff a choice has been made. -/
theorem toCompressed_correctChoice_and_choiceLocked
    (q : HotSeatQuestion) (madeChoice : Option Nat) (showCorrectChoice : Bool) :
    ((q.toCompressed madeChoice showCorrectChoice).correctChoice ≠ none ↔
      showCorrectChoice = true) ∧
    (q.toCompressed madeChoice showCorrectChoice).correctChoice =
      (if showCorrectChoice then some q.getCorrectChoice else none) ∧
    (q.toCompressed madeChoice showCorrectChoice).choiceLocked = madeChoice.isSome := by
  cases showCorrectChoice <;>
    simp [HotSeatQuestion.toCompressed, toCompressedBase]

/-- A question with the identity shuffle whose presented slot 0 (and only
that slot) has been revealed. -/
def oneRevealedQ : HotSeatQuestion :=
  ⟨[0, 1, 2, 3], [0, 1, 2, 3], [true, false, false, false], false, false, 0⟩

/-- Counterexample to C8: with exactly one choice revealed, the source
function returns `[0]` — the index of the one *revealed* choice — while the
claimed "indexes of the choices that have not yet been revealed" would be
`[1, 2, 3]`. -/
theorem getRemainingOrderedChoiceIndexes_not_the_unrevealed :
    HotSeatQuestion.getRemainingOrderedChoiceIndexes oneRevealedQ = [0] ∧
    specUnrevealedOrderedChoiceIndexes oneRevealedQ = [1, 2, 3] ∧
    HotSeatQuestion.getRemainingOrderedChoiceIndexes oneRevealedQ ≠
      specUnrevealedOrderedChoiceIndexes oneRevealedQ := by
  decide

/-- C8 (amended): `getRemainingOrderedChoiceIndexes` returns, in increasing
true-rank order, exactly the indexes of the choices whose presented slot has
a defined (i.e. revealed) `revealedChoices` entry — the revealed choices, not
the unrevealed ones. -/
theorem getRemainingOrderedChoiceIndexes_exactly_the_revealed
    (q : HotSeatQuestion) :
    (∀ i, i ∈ q.getRemainingOrderedChoiceIndexes ↔
      (i < q.orderedChoices.length ∧ ∃ s, q.getShuffledChoice i = some s ∧
        q.revealedChoices.getD s false = true)) ∧
    q.getRemainingOrderedChoiceIndexes.Sorted (· < ·) := by
  constructor
  · intro i
    simp only [HotSeatQuestion.getRemainingOrderedChoiceIndexes, List.mem_filter,
      List.mem_range]
    constructor
    · rintro ⟨hi, hdef⟩
      refine ⟨hi, ?_⟩
      unfold HotSeatQuestion.revealedEntryDefined at hdef
      cases hs : q.getShuffledChoice i with
      | none => rw [hs] at hdef; exact absurd hdef (by simp)
      | some s => rw [hs] at hdef; exact ⟨s, rfl, hdef⟩
    · rintro ⟨hi, s, hs, hrev⟩
      refine ⟨hi, ?_⟩
      unfold HotSeatQuestion.revealedEntryDefined
      rw [hs]
      exact hrev
  · exact List.Pairwise.sublist (List.filter_sublist _) (List.pairwise_lt_range _)

/-- C9 (amended): a submitted choice outside the four valid slots is never
stored as any player's answer, and every choice-submission handler stays
total (no crash): `contestantChoose` leaves the state entirely unchanged,
and `contestantFastestFingerChoose` records nothing and leaves the state
unchanged while some contestant is still short of a full ordering — but in a
state where all contestants are already done, even the invalid submission
still re-runs `fastestFingerTimeUp` (mutating the phase state, as any
submission then does), and `hotSeatChoose` still records the phase name and
installs the final-answer yes/no dialog regardless of choice validity, so
those handlers can mutate `ServerState` on invalid input. -/
theorem invalid_choice_never_stored_but_hotSeatChoose_installs_dialog
    (s : GameState) (i choice : Nat)
    (hinv : isValidChoice choice = false) :
    recordFastestFinger s i choice = s ∧
    (allPlayersDoneWithFastestFinger s = false →
      contestantFastestFingerChoose s i choice = s) ∧
    (allPlayersDoneWithFastestFinger s = true →
      contestantFastestFingerChoose s i choice = fastestFingerTimeUp s) ∧
    contestantChoose s i choice = s ∧
    (hotSeatChoose s choice).hotSeatPlayer = s.hotSeatPlayer ∧
    (hotSeatChoose s choice).currentSocketEvent = some "hotSeatChoose" ∧
    (s.showHostPresent = true → (hotSeatChoose s choice).showHostStepDialog =
      some (getYesNoDialog "hotSeatFinalAnswer" "showHostRevealHotSeatChoice"
        (LocalizedStrings "HOT_SEAT_FINAL_ANSWER"))) ∧
    (s.showHostPresent = false → (hotSeatChoose s choice).hotSeatStepDialog =
      some (getYesNoDialog "hotSeatFinalAnswer" "showHostRevealHotSeatChoice"
        (LocalizedStrings "HOT_SEAT_FINAL_ANSWER"))) := by
  have hffFix : ∀ p, chooseFastestFinger p choice = p := by
    intro p; simp [chooseFastestFinger, hinv]
  have hhsFix : ∀ p, chooseHotSeat p choice = p := by
    intro p; simp [chooseHotSeat, hinv]
  have hrec : recordFastestFinger s i choice = s := by
    unfold recordFastestFinger
    rw [modifyContestant_fix _ hffFix s.contestants i]
  refine ⟨hrec, ?_, ?_, ?_, ?_, ?_, ?_, ?_⟩
  · intro hnotdone; simp [contestantFastestFingerChoose, hrec, hnotdone]
  · intro hdone; simp [contestantFastestFingerChoose, hrec, hdone]
  · unfold contestantChoose
    rw [modifyContestant_fix _ hhsFix s.contestants i]
  · cases hsh : s.showHostPresent <;> simp [hotSeatChoose, hsh, hhsFix]
  · cases hsh : s.showHostPresent <;> simp [hotSeatChoose, hsh]
  · intro hsh; simp [hotSeatChoose, hsh]
  · intro hsh; simp [hotSeatChoose, hsh]

/-- A hot-seat game mid-question: one contestant roster entry still short of
an ordering (so the fastest-finger completion test is false), hot-seat player
yet to answer, no host. -/
def hotSeatMidQuestionState : GameState :=
  { showHostPresent := false,
    currentSocketEvent := some "showHostRevealHotSeatChoice",
    contestants := [⟨[0], none⟩],
    hotSeatPlayer := ⟨[], none⟩,
    hotSeatQuestion := ⟨[0, 1, 2, 3], [1, 0, 2, 3], [true, true, true, true],
      false, false, 4⟩,
    hotSeatQuestionIndex := 4 }

/-- Witness for C9 (amended) at the out-of-range choice `7`. -/
theorem invalid_choice_never_stored_but_hotSeatChoose_installs_dialog_witness :
    recordFastestFinger hotSeatMidQuestionState 0 7 = hotSeatMidQuestionState ∧
    (allPlayersDoneWithFastestFinger hotSeatMidQuestionState = false →
      contestantFastestFingerChoose hotSeatMidQuestionState 0 7 =
        hotSeatMidQuestionState) ∧
    (allPlayersDoneWithFastestFinger hotSeatMidQuestionState = true →
      contestantFastestFingerChoose hotSeatMidQuestionState 0 7 =
        fastestFingerTimeUp hotSeatMidQuestionState) ∧
    contestantChoose hotSeatMidQuestionState 0 7 = hotSeatMidQuestionState ∧
    (hotSeatChoose hotSeatMidQuestionState 7).hotSeatPlayer =
      hotSeatMidQuestionState.hotSeatPlayer ∧
    (hotSeatChoose hotSeatMidQuestionState 7).currentSocketEvent =
      some "hotSeatChoose" ∧
    (hotSeatMidQuestionState.showHostPresent = true →
      (hotSeatChoose hotSeatMidQuestionState 7).showHostStepDialog =
      some (getYesNoDialog "hotSeatFinalAnswer" "showHostRevealHotSeatChoice"
        (LocalizedStrings "HOT_SEAT_FINAL_ANSWER"))) ∧
    (hotSeatMidQuestionState.showHostPresent = false →
      (hotSeatChoose hotSeatMidQuestionState 7).hotSeatStepDialog =
      some (getYesNoDialog "hotSeatFinalAnswer" "showHostRevealHotSeatChoice"
        (LocalizedStrings "HOT_SEAT_FINAL_ANSWER"))) :=
  invalid_choice_never_stored_but_hotSeatChoose_installs_dialog
    hotSeatMidQuestionState 0 7 (by decide)

/-- Counterexample to C9 as stated: the invalid choice `7` sent as a
`hotSeatChoose` message does mutate `ServerState` — the phase name changes to
`hotSeatChoose` and the final-answer dialog appears in the hot-seat slot
where there was none. -/
theorem hotSeatChoose_invalid_choice_mutates_state :
    isValidChoice 7 = false ∧
    hotSeatChoose hotSeatMidQuestionState 7 ≠ hotSeatMidQuestionState ∧
    (hotSeatChoose hotSeatMidQuestionState 7).hotSeatStepDialog ≠
      hotSeatMidQuestionState.hotSeatStepDialog ∧
    (hotSeatChoose hotSeatMidQuestionState 7).currentSocketEvent ≠
      hotSeatMidQuestionState.currentSocketEvent := by
  decide

/-- C10: with no human host and `hotSeatQuestionIndex = 4`, grading an
incorrect locked-in answer in `hotSeatFinalAnswer` installs the automatic
dialog targeting `showHostRevealHotSeatQuestionLoss` with wait
`FINAL_ANSWER_WAIT_TIMES[4] = 1500` ms; a correct answer symmetrically
targets `showHostRevealHotSeatQuestionVictory` with the same tier-specific
wait. -/
theorem hotSeatFinalAnswer_tier5_wait_and_outcome_phase
    (s : GameState)
    (hhost : s.showHostPresent = false)
    (hidx : s.hotSeatQuestionIndex = 4) :
    (HotSeatQuestion.answerIsCorrect s.hotSeatQuestion
        s.hotSeatPlayer.hotSeatChoice = false →
      (hotSeatFinalAnswer s).showHostStepDialog = some
        { actions := [],
          timeoutFunc := some "showHostRevealHotSeatQuestionLoss",
          timeoutMs := some 1500,
          header := none }) ∧
    (HotSeatQuestion.answerIsCorrect s.hotSeatQuestion
        s.hotSeatPlayer.hotSeatChoice = true →
      (hotSeatFinalAnswer s).showHostStepDialog = some
        { actions := [],
          timeoutFunc := some "showHostRevealHotSeatQuestionVictory",
          timeoutMs := some 1500,
          header := none }) := by
  have hg : HotSeatQuestion.answerIsCorrect
      s.hotSeatQuestion.revealCorrectChoiceForShowHost
      s.hotSeatPlayer.hotSeatChoice =
    HotSeatQuestion.answerIsCorrect s.hotSeatQuestion
      s.hotSeatPlayer.hotSeatChoice := rfl
  constructor <;> intro h <;>
    simp [hotSeatFinalAnswer, hg, h, hhost, hidx, getOneChoiceHostStepDialog,
      FINAL_ANSWER_WAIT_TIMES]

/-- Witness for C10 in `hotSeatMidQuestionState` after the hot-seat player
locks in presented slot 0, which holds the second-ranked choice (wrong). -/
theorem hotSeatFinalAnswer_tier5_wait_and_outcome_phase_witness :
    (HotSeatQuestion.answerIsCorrect
        (hotSeatChoose hotSeatMidQuestionState 0).hotSeatQuestion
        (hotSeatChoose hotSeatMidQuestionState 0).hotSeatPlayer.hotSeatChoice = false →
      (hotSeatFinalAnswer (hotSeatChoose hotSeatMidQuestionState 0)).showHostStepDialog =
        some
        { actions := [],
          timeoutFunc := some "showHostRevealHotSeatQuestionLoss",
          timeoutMs := some 1500,
          header := none }) ∧
    (HotSeatQuestion.answerIsCorrect
        (hotSeatChoose hotSeatMidQuestionState 0).hotSeatQuestion
        (hotSeatChoose hotSeatMidQuestionState 0).hotSeatPlayer.hotSeatChoice = true →
      (hotSeatFinalAnswer (hotSeatChoose hotSeatMidQuestionState 0)).showHostStepDialog =
        some
        { actions := [],
          timeoutFunc := some "showHostRevealHotSeatQuestionVictory",
          timeoutMs := some 1500,
          header := none }) :=
  hotSeatFinalAnswer_tier5_wait_and_outcome_phase
    (hotSeatChoose hotSeatMidQuestionState 0) rfl rfl

end Millionaire
